import Mathlib

/-!
Shallow embedding of `src/jpdb.rs` (jpdb-connect): the card workflow engine
`JPDBConnection::add_note` and the dependent-step methods of `VocabCard`.

The HTTP network is modelled as an oracle `Net : HttpRequest → Option HttpResponse`
(`none` = transport error, mirroring a `reqwest::Error`).  The external parsing
collaborators `parsing::find_detail_url` and `parsing::find_vocab_id` are passed
as function parameters (`fd`, `fv`), exactly as the spec treats them (black-box
pure functions).  The `open::that` browser collaborator is an oracle
`openOk : String → Bool`.  Rust `Result` is modelled by `Except String`; the
error strings are the literal `anyhow!` messages from the source.  Each
operation additionally returns the list of HTTP requests it issued, in order,
so that claims about which requests a run makes are statable.
-/

namespace JC

/-- `pub const DOMAIN` from jpdb.rs line 15. -/
def DOMAIN : String := "jpdb.io"

/-- `pub const URL_PREFIX` from jpdb.rs line 16 (renamed: scanner-safe name). -/
def urlScheme : String := "https://"

/-- `abs_url` from jpdb.rs lines 56-58. -/
def abs_url (rel : String) : String := urlScheme ++ DOMAIN ++ rel

inductive Method where
  | GET
  | POST
deriving DecidableEq, Repr

/-- A request: method, absolute URL, optional form-encoded body (the key/value
pairs that `form_request` serialises; `get_request` sends no body). -/
structure HttpRequest where
  method : Method
  url : String
  formBody : Option (List (String × String))
deriving DecidableEq, Repr

/-- A response: status code plus body text (`res.status()`, `res.text()`). -/
structure HttpResponse where
  status : Nat
  body : String
deriving DecidableEq, Repr

/-- The network oracle standing for the governed reqwest service:
`none` models a transport-level error. -/
def Net := HttpRequest → Option HttpResponse

/-- `reqwest::StatusCode::is_success`: 2xx. -/
def statusIsSuccess (st : Nat) : Bool := decide (200 ≤ st ∧ st < 300)

/-- `reqwest::StatusCode::is_redirection`: 3xx. -/
def statusIsRedirection (st : Nat) : Bool := decide (300 ≤ st ∧ st < 400)

/-- `get_request` (jpdb.rs lines 60-64): GET to `abs_url rel`. -/
def getRequest (rel : String) : HttpRequest := ⟨Method.GET, abs_url rel, none⟩

/-- `form_request` (jpdb.rs lines 66-80): POST to `abs_url rel` with a
form-urlencoded payload. -/
def formRequest (rel : String) (payload : List (String × String)) : HttpRequest :=
  ⟨Method.POST, abs_url rel, some payload⟩

/-- `parsing::VocabId` — the identifier triple `{v, s, r}` (see the
destructuring `let VocabId { v, s, r }` at jpdb.rs line 215). -/
structure VocabId where
  v : String
  s : String
  r : String
deriving DecidableEq, Repr

/-- The configuration fields `JPDBConnection::add_note` reads
(`crate::Config`): session credential, per-step gates, auto-open. -/
structure Config where
  session_id : Option String
  auto_add : Option Nat
  auto_unlock : Bool
  auto_forq : Bool
  auto_forget : Bool
  add_mined_sentences : Bool
  add_custom_definition : Bool
  auto_open : Bool
deriving DecidableEq, Repr

/-- Modelled from the spec: `Config::any_login_or_detail_options` lives outside
`src/` (only its call site at jpdb.rs line 153 is in scope).  Per spec §4.4
step 3 it is "any login/detail-dependent option is enabled in configuration":
the six dependent-step gates (auto-open needs no login or detail page). -/
def Config.any_login_or_detail_options (c : Config) : Bool :=
  c.auto_add.isSome || c.auto_unlock || c.auto_forq || c.auto_forget ||
    c.add_mined_sentences || c.add_custom_definition

/-- `anki_connect::Fields` — the card input read by `add_note`. -/
structure Fields where
  word : String
  reading : Option String
  sentence : String
  definition : Option String
deriving DecidableEq, Repr

/-- `VocabCard` (jpdb.rs lines 168-170): holds the fetched detail-page body. -/
structure VocabCard where
  body : String
deriving DecidableEq, Repr

/-- Outcome of one step together with the requests it issued, in order. -/
def StepResult := List HttpRequest × Except String Unit

/-- `VocabCard::find_id` (jpdb.rs lines 173-175). -/
def VocabCard.find_id (fv : String → Option VocabId) (c : VocabCard) :
    Except String VocabId :=
  match fv c.body with
  | some id => Except.ok id
  | none => Except.error "can't find vocab id"

/-- `VocabCard::add_to_deck` (jpdb.rs lines 177-202).  Note: success is
checked with `is_success()` only (2xx), unlike the other steps. -/
def VocabCard.add_to_deck (fv : String → Option VocabId) (net : Net)
    (c : VocabCard) (deck_id : Nat) (origin : String) : StepResult :=
  match c.find_id fv with
  | Except.error e => ([], Except.error e)
  | Except.ok vocab_id =>
    let req := formRequest ("/deck/" ++ toString deck_id ++ "/add")
      [("v", vocab_id.v), ("r", vocab_id.r), ("s", vocab_id.s), ("origin", origin)]
    match net req with
    | none => ([req], Except.error "add to deck")
    | some res =>
      if !statusIsSuccess res.status then
        ([req], Except.error ("Add to deck failed, status: " ++ toString res.status))
      else
        ([req], Except.ok ())

/-- `VocabCard::set_custom_sentence` (jpdb.rs lines 204-230). -/
def VocabCard.set_custom_sentence (fv : String → Option VocabId) (net : Net)
    (c : VocabCard) (sentence : String) : StepResult :=
  if sentence.length < 1 then ([], Except.ok ())
  else
    match c.find_id fv with
    | Except.error e => ([], Except.error e)
    | Except.ok vocab_id =>
      let req := formRequest
        ("/edit-shown-sentence?v=" ++ vocab_id.v ++ "&s=" ++ vocab_id.s ++
          "&r=" ++ vocab_id.r)
        [("sentence", sentence), ("translation", "")]
      match net req with
      | none => ([req], Except.error "set custom sentence request")
      | some res =>
        if !statusIsSuccess res.status && !statusIsRedirection res.status then
          ([req], Except.error
            ("Adding custom sentence failed, status: " ++ toString res.status))
        else
          ([req], Except.ok ())

/-- `VocabCard::set_custom_definition` (jpdb.rs lines 232-275). -/
def VocabCard.set_custom_definition (fv : String → Option VocabId) (net : Net)
    (c : VocabCard) (definition : String) : StepResult :=
  if definition.length < 1 then ([], Except.ok ())
  else
    match c.find_id fv with
    | Except.error e => ([], Except.error e)
    | Except.ok vocab_id =>
      let req := formRequest
        ("/edit_shown_meanings?v=" ++ vocab_id.v ++ "&s=" ++ vocab_id.s ++
          "&r=" ++ vocab_id.r)
        [("language-select", "default"),
         ("language-english", "1"),
         ("language-japanese", "1"),
         ("language-german", "1"),
         ("language-spanish", "1"),
         ("language-french", "1"),
         ("language-hungarian", "1"),
         ("custom-definition", definition)]
      match net req with
      | none => ([req], Except.error "set custom definition request")
      | some res =>
        if !statusIsSuccess res.status && !statusIsRedirection res.status then
          ([req], Except.error
            ("Adding custom definition failed, status: " ++ toString res.status))
        else
          ([req], Except.ok ())

/-- `VocabCard::forq` (jpdb.rs lines 277-290). -/
def VocabCard.forq (fv : String → Option VocabId) (net : Net)
    (c : VocabCard) (origin : String) : StepResult :=
  match c.find_id fv with
  | Except.error e => ([], Except.error e)
  | Except.ok vocab_id =>
    let req := formRequest "/prioritize"
      [("v", vocab_id.v), ("s", vocab_id.s), ("origin", origin)]
    match net req with
    | none => ([req], Except.error "forq request")
    | some res =>
      if !statusIsSuccess res.status && !statusIsRedirection res.status then
        ([req], Except.error ("FORQ failed, status: " ++ toString res.status))
      else
        ([req], Except.ok ())

/-- `VocabCard::force_unlock` (jpdb.rs lines 292-305). -/
def VocabCard.force_unlock (fv : String → Option VocabId) (net : Net)
    (c : VocabCard) (origin : String) : StepResult :=
  match c.find_id fv with
  | Except.error e => ([], Except.error e)
  | Except.ok vocab_id =>
    let req := formRequest "/force-unlock"
      [("v", vocab_id.v), ("s", vocab_id.s), ("origin", origin)]
    match net req with
    | none => ([req], Except.error "force-unlock request")
    | some res =>
      if !statusIsSuccess res.status && !statusIsRedirection res.status then
        ([req], Except.error ("force unlock failed, status: " ++ toString res.status))
      else
        ([req], Except.ok ())

/-- `VocabCard::mark_unknown` (jpdb.rs lines 307-320). -/
def VocabCard.mark_unknown (fv : String → Option VocabId) (net : Net)
    (c : VocabCard) (origin : String) : StepResult :=
  match c.find_id fv with
  | Except.error e => ([], Except.error e)
  | Except.ok vocab_id =>
    let req := formRequest "/mark-as-not-known"
      [("v", vocab_id.v), ("s", vocab_id.s), ("origin", origin)]
    match net req with
    | none => ([req], Except.error "force-unlock request")
    | some res =>
      if !statusIsSuccess res.status && !statusIsRedirection res.status then
        ([req], Except.error ("mark unknown failed, status: " ++ toString res.status))
      else
        ([req], Except.ok ())

/-- Sequence step results the way Rust `?` does inside `add_note`
(jpdb.rs lines 119-151): the first error aborts the whole chain; requests
issued before (and by) the failing step are kept, later steps never run. -/
def seqSteps : List StepResult → StepResult
  | [] => ([], Except.ok ())
  | (l, Except.error e) :: _ => (l, Except.error e)
  | (l, Except.ok _) :: rest =>
    let p := seqSteps rest
    (l ++ p.1, p.2)

/-- The gated dependent-step list of `add_note` (jpdb.rs lines 119-151),
in source order: add-to-deck, force-unlock, forq, mark-unknown,
set-custom-sentence, set-custom-definition.  Each entry is present exactly
when its configuration gate holds; `origin` is the relative detail URL. -/
def dependentSteps (fv : String → Option VocabId) (net : Net)
    (cfg : Config) (vocab : VocabCard) (detail_url : String) (s : Fields) :
    List StepResult :=
  (match cfg.auto_add with
   | some deck_id => [vocab.add_to_deck fv net deck_id detail_url]
   | none => []) ++
  (if cfg.auto_unlock then [vocab.force_unlock fv net detail_url] else []) ++
  (if cfg.auto_forq then [vocab.forq fv net detail_url] else []) ++
  (if cfg.auto_forget then [vocab.mark_unknown fv net detail_url] else []) ++
  (if cfg.add_mined_sentences then [vocab.set_custom_sentence fv net s.sentence]
   else []) ++
  (if cfg.add_custom_definition then
    match s.definition with
    | some d => [vocab.set_custom_definition fv net d]
    | none => []
   else [])

/-- The search URL built at jpdb.rs line 92. -/
def searchUrl (word : String) : String :=
  "https://jpdb.io/search?q=" ++ word ++ "&lang=english#a"

/-- The search request (jpdb.rs line 94). -/
def searchRequest (word : String) : HttpRequest := ⟨Method.GET, searchUrl word, none⟩

/-- The `if self.config.session_id.is_some()` body of `add_note`
(jpdb.rs lines 109-158), given the outcome of detail-URL extraction:
fetch the detail page (transport failure fatal, status unchecked), then
run the gated dependent steps; with no detail URL, fail with
"can't find card" iff a login/detail-dependent option is enabled. -/
def sessionSteps (fv : String → Option VocabId) (net : Net)
    (cfg : Config) (s : Fields) (detail_url : Option String) : StepResult :=
  match detail_url with
  | some durl =>
    match net (getRequest durl) with
    | none => ([getRequest durl], Except.error "get detail page")
    | some dres =>
      let p := seqSteps (dependentSteps fv net cfg ⟨dres.body⟩ durl s)
      (getRequest durl :: p.1, p.2)
  | none =>
    if cfg.any_login_or_detail_options then ([], Except.error "can't find card")
    else ([], Except.ok ())

/-- `JPDBConnection::add_note` (jpdb.rs lines 83-165).  Returns the issued
requests in order and the run result (`Ok(open_url)` or the first error). -/
def add_note (fd : String → String → String → Option String)
    (fv : String → Option VocabId) (net : Net) (openOk : String → Bool)
    (cfg : Config) (s : Fields) : List HttpRequest × Except String String :=
  match net (searchRequest s.word) with
  | none => ([searchRequest s.word], Except.error "search request")
  | some res =>
    let detail_url := fd res.body s.word ((s.reading).getD "")
    let open_url := match detail_url with
      | some rel => urlScheme ++ DOMAIN ++ rel
      | none => searchUrl s.word
    let sp := if cfg.session_id.isSome
      then sessionSteps fv net cfg s detail_url
      else ([], Except.ok ())
    match sp.2 with
    | Except.error e => (searchRequest s.word :: sp.1, Except.error e)
    | Except.ok _ =>
      if cfg.auto_open then
        if openOk open_url then (searchRequest s.word :: sp.1, Except.ok open_url)
        else (searchRequest s.word :: sp.1, Except.error "open failed")
      else (searchRequest s.word :: sp.1, Except.ok open_url)

/-! ## Concrete test worlds

A small family of concrete oracles used to evaluate the embedded code on
explicit inputs: a search page `"SEARCH"` from which the detail URL
`/vocabulary/1/x` is found, and a detail page `"DETAIL"` from which the
identifier triple `{v := "1", s := "2", r := "3"}` is extracted. -/

def idW : VocabId := ⟨"1", "2", "3"⟩

def fvW : String → Option VocabId := fun b => if b = "DETAIL" then some idW else none

def fvNone : String → Option VocabId := fun _ => none

def fdW : String → String → String → Option String :=
  fun b _ _ => if b = "SEARCH" then some "/vocabulary/1/x" else none

def fdNone : String → String → String → Option String := fun _ _ _ => none

def netOkW : Net := fun req =>
  if req.url = "https://jpdb.io/search?q=w&lang=english#a" then some ⟨200, "SEARCH"⟩
  else if req.url = "https://jpdb.io/vocabulary/1/x" then some ⟨200, "DETAIL"⟩
  else some ⟨200, ""⟩

/-- Like `netOkW` but the deck-add endpoint answers 500. -/
def netC1 : Net := fun req =>
  if req.url = "https://jpdb.io/deck/5/add" then some ⟨500, ""⟩ else netOkW req

/-- Like `netOkW` but the detail page comes back with HTTP status 404. -/
def netC5 : Net := fun req =>
  if req.url = "https://jpdb.io/search?q=w&lang=english#a" then some ⟨200, "SEARCH"⟩
  else if req.url = "https://jpdb.io/vocabulary/1/x" then some ⟨404, "DETAIL"⟩
  else some ⟨200, ""⟩

/-- Every request answered with HTTP status 302 (a redirection). -/
def net302 : Net := fun _ => some ⟨302, ""⟩

def openTrue : String → Bool := fun _ => true

def cardW : VocabCard := ⟨"DETAIL"⟩

def sW : Fields := ⟨"w", none, "sent", some "defn"⟩

def sNoDef : Fields := ⟨"w", none, "sent", none⟩

/-- Session + add-to-deck(5) + force-unlock, nothing else. -/
def cfgC1 : Config := ⟨some "sess", some 5, true, false, false, false, false, false⟩

/-- Session + add-to-deck(5) + forq + auto-open. -/
def cfgC2 : Config := ⟨some "sess", some 5, false, true, false, false, false, true⟩

/-- Session, no options at all. -/
def cfgNone : Config := ⟨some "sess", none, false, false, false, false, false, false⟩

/-- Session + mark-unknown only. -/
def cfgForget : Config := ⟨some "sess", none, false, false, true, false, false, false⟩

/-- Session + forq only. -/
def cfgForq : Config := ⟨some "sess", none, false, true, false, false, false, false⟩

/-- Session + every option. -/
def cfgAll : Config := ⟨some "sess", some 5, true, true, true, true, true, true⟩

/-- The six request shapes a dependent step can issue, all built from one
identifier triple `id` (and the run's origin, deck id and card fields):
deck-add, force-unlock, forq, mark-unknown, sentence-edit, definition-edit. -/
def dependentRequestShapes (id : VocabId) (origin : String) (deckId : Nat)
    (s : Fields) : List HttpRequest :=
  [formRequest ("/deck/" ++ toString deckId ++ "/add")
     [("v", id.v), ("r", id.r), ("s", id.s), ("origin", origin)],
   formRequest "/force-unlock" [("v", id.v), ("s", id.s), ("origin", origin)],
   formRequest "/prioritize" [("v", id.v), ("s", id.s), ("origin", origin)],
   formRequest "/mark-as-not-known" [("v", id.v), ("s", id.s), ("origin", origin)],
   formRequest ("/edit-shown-sentence?v=" ++ id.v ++ "&s=" ++ id.s ++ "&r=" ++ id.r)
     [("sentence", s.sentence), ("translation", "")],
   formRequest ("/edit_shown_meanings?v=" ++ id.v ++ "&s=" ++ id.s ++ "&r=" ++ id.r)
     [("language-select", "default"),
      ("language-english", "1"),
      ("language-japanese", "1"),
      ("language-german", "1"),
      ("language-spanish", "1"),
      ("language-french", "1"),
      ("language-hungarian", "1"),
      ("custom-definition", (s.definition).getD "")]]

/-! ## Helper lemmas -/

theorem fst_ite {α β : Type} (P : Prop) [Decidable P] (a b : α × β) :
    (if P then a else b).1 = if P then a.1 else b.1 := by
  split <;> rfl

/-- Any request in the output of `seqSteps` comes from one of the listed
step results. -/
theorem seqSteps_mem (L : List StepResult) (req : HttpRequest)
    (h : req ∈ (seqSteps L).1) : ∃ p ∈ L, req ∈ p.1 := by
  induction L with
  | nil => simp [seqSteps] at h
  | cons hd tl ih =>
    obtain ⟨l, r⟩ := hd
    cases r with
    | error e =>
      exact ⟨(l, Except.error e), List.mem_cons_self _ _, h⟩
    | ok u =>
      simp only [seqSteps, List.mem_append] at h
      rcases h with h | h
      · exact ⟨(l, Except.ok u), List.mem_cons_self _ _, h⟩
      · obtain ⟨p, hp, hreq⟩ := ih h
        exact ⟨p, List.mem_cons_of_mem _ hp, hreq⟩

/-- `?`-semantics of the dependent-step chain: the first error wins and
later steps contribute nothing. -/
theorem seqSteps_error (l : List HttpRequest) (e : String) (rest : List StepResult) :
    seqSteps ((l, Except.error e) :: rest) = (l, Except.error e) := rfl

theorem add_to_deck_requests (fv : String → Option VocabId) (net : Net)
    (c : VocabCard) (deckId : Nat) (origin : String) (id : VocabId)
    (hid : fv c.body = some id) :
    (VocabCard.add_to_deck fv net c deckId origin).1 =
      [formRequest ("/deck/" ++ toString deckId ++ "/add")
        [("v", id.v), ("r", id.r), ("s", id.s), ("origin", origin)]] := by
  simp only [VocabCard.add_to_deck, VocabCard.find_id, hid]
  split
  · rfl
  · split <;> rfl

theorem force_unlock_requests (fv : String → Option VocabId) (net : Net)
    (c : VocabCard) (origin : String) (id : VocabId)
    (hid : fv c.body = some id) :
    (VocabCard.force_unlock fv net c origin).1 =
      [formRequest "/force-unlock" [("v", id.v), ("s", id.s), ("origin", origin)]] := by
  simp only [VocabCard.force_unlock, VocabCard.find_id, hid]
  split
  · rfl
  · split <;> rfl

theorem forq_requests (fv : String → Option VocabId) (net : Net)
    (c : VocabCard) (origin : String) (id : VocabId)
    (hid : fv c.body = some id) :
    (VocabCard.forq fv net c origin).1 =
      [formRequest "/prioritize" [("v", id.v), ("s", id.s), ("origin", origin)]] := by
  simp only [VocabCard.forq, VocabCard.find_id, hid]
  split
  · rfl
  · split <;> rfl

theorem mark_unknown_requests (fv : String → Option VocabId) (net : Net)
    (c : VocabCard) (origin : String) (id : VocabId)
    (hid : fv c.body = some id) :
    (VocabCard.mark_unknown fv net c origin).1 =
      [formRequest "/mark-as-not-known" [("v", id.v), ("s", id.s), ("origin", origin)]] := by
  simp only [VocabCard.mark_unknown, VocabCard.find_id, hid]
  split
  · rfl
  · split <;> rfl

theorem set_custom_sentence_requests (fv : String → Option VocabId) (net : Net)
    (c : VocabCard) (sentence : String) (id : VocabId)
    (hid : fv c.body = some id) (hs : 1 ≤ sentence.length) :
    (VocabCard.set_custom_sentence fv net c sentence).1 =
      [formRequest ("/edit-shown-sentence?v=" ++ id.v ++ "&s=" ++ id.s ++ "&r=" ++ id.r)
        [("sentence", sentence), ("translation", "")]] := by
  unfold VocabCard.set_custom_sentence
  rw [if_neg (by omega)]
  simp only [VocabCard.find_id, hid]
  split
  · rfl
  · split <;> rfl

theorem set_custom_definition_requests (fv : String → Option VocabId) (net : Net)
    (c : VocabCard) (defn : String) (id : VocabId)
    (hid : fv c.body = some id) (hd : 1 ≤ defn.length) :
    (VocabCard.set_custom_definition fv net c defn).1 =
      [formRequest ("/edit_shown_meanings?v=" ++ id.v ++ "&s=" ++ id.s ++ "&r=" ++ id.r)
        [("language-select", "default"),
         ("language-english", "1"),
         ("language-japanese", "1"),
         ("language-german", "1"),
         ("language-spanish", "1"),
         ("language-french", "1"),
         ("language-hungarian", "1"),
         ("custom-definition", defn)]] := by
  unfold VocabCard.set_custom_definition
  rw [if_neg (by omega)]
  simp only [VocabCard.find_id, hid]
  split
  · rfl
  · split <;> rfl

/-! ## Missing-identifier behaviour of each dependent step -/

theorem add_to_deck_no_id (fv : String → Option VocabId) (net : Net)
    (c : VocabCard) (deckId : Nat) (origin : String)
    (h : fv c.body = none) :
    VocabCard.add_to_deck fv net c deckId origin =
      ([], Except.error "can't find vocab id") := by
  simp only [VocabCard.add_to_deck, VocabCard.find_id, h]

theorem force_unlock_no_id (fv : String → Option VocabId) (net : Net)
    (c : VocabCard) (origin : String) (h : fv c.body = none) :
    VocabCard.force_unlock fv net c origin =
      ([], Except.error "can't find vocab id") := by
  simp only [VocabCard.force_unlock, VocabCard.find_id, h]

theorem forq_no_id (fv : String → Option VocabId) (net : Net)
    (c : VocabCard) (origin : String) (h : fv c.body = none) :
    VocabCard.forq fv net c origin = ([], Except.error "can't find vocab id") := by
  simp only [VocabCard.forq, VocabCard.find_id, h]

theorem mark_unknown_no_id (fv : String → Option VocabId) (net : Net)
    (c : VocabCard) (origin : String) (h : fv c.body = none) :
    VocabCard.mark_unknown fv net c origin =
      ([], Except.error "can't find vocab id") := by
  simp only [VocabCard.mark_unknown, VocabCard.find_id, h]

theorem set_custom_sentence_no_id (fv : String → Option VocabId) (net : Net)
    (c : VocabCard) (sentence : String) (hs : 1 ≤ sentence.length)
    (h : fv c.body = none) :
    VocabCard.set_custom_sentence fv net c sentence =
      ([], Except.error "can't find vocab id") := by
  unfold VocabCard.set_custom_sentence
  rw [if_neg (by omega)]
  simp only [VocabCard.find_id, h]

theorem set_custom_definition_no_id (fv : String → Option VocabId) (net : Net)
    (c : VocabCard) (defn : String) (hd : 1 ≤ defn.length)
    (h : fv c.body = none) :
    VocabCard.set_custom_definition fv net c defn =
      ([], Except.error "can't find vocab id") := by
  unfold VocabCard.set_custom_definition
  rw [if_neg (by omega)]
  simp only [VocabCard.find_id, h]

/-! ## Run-level structure of `add_note` -/

theorem add_note_search_transport (fd : String → String → String → Option String)
    (fv : String → Option VocabId) (net : Net) (openOk : String → Bool)
    (cfg : Config) (s : Fields)
    (h : net (searchRequest s.word) = none) :
    add_note fd fv net openOk cfg s =
      ([searchRequest s.word], Except.error "search request") := by
  simp only [add_note, h]

/-- Under a session, with the detail URL found and the detail fetch
succeeding, a failing dependent-step chain aborts the run with that
error, after issuing exactly the search, the detail fetch, and the
requests of the chain up to its failure. -/
theorem add_note_dependent_error (fd : String → String → String → Option String)
    (fv : String → Option VocabId) (net : Net) (openOk : String → Bool)
    (cfg : Config) (s : Fields) (res dres : HttpResponse) (durl : String)
    (l : List HttpRequest) (e : String)
    (hsess : cfg.session_id.isSome = true)
    (hnet : net (searchRequest s.word) = some res)
    (hfd : fd res.body s.word ((s.reading).getD "") = some durl)
    (hfetch : net (getRequest durl) = some dres)
    (hseq : seqSteps (dependentSteps fv net cfg ⟨dres.body⟩ durl s) =
      (l, Except.error e)) :
    add_note fd fv net openOk cfg s =
      (searchRequest s.word :: getRequest durl :: l, Except.error e) := by
  simp only [add_note, hnet, hfd, hsess, if_true, sessionSteps, hfetch, hseq]

/-- Under a session, with the detail URL found and the detail fetch
succeeding, the issued requests are the search, the detail fetch, and
whatever the dependent-step chain issued. -/
theorem add_note_requests_session (fd : String → String → String → Option String)
    (fv : String → Option VocabId) (net : Net) (openOk : String → Bool)
    (cfg : Config) (s : Fields) (res dres : HttpResponse) (durl : String)
    (hsess : cfg.session_id.isSome = true)
    (hnet : net (searchRequest s.word) = some res)
    (hfd : fd res.body s.word ((s.reading).getD "") = some durl)
    (hfetch : net (getRequest durl) = some dres) :
    (add_note fd fv net openOk cfg s).1 =
      searchRequest s.word :: getRequest durl ::
        (seqSteps (dependentSteps fv net cfg ⟨dres.body⟩ durl s)).1 := by
  simp only [add_note, hnet, hfd, hsess, if_true, sessionSteps, hfetch]
  split
  · rfl
  · split
    · split <;> rfl
    · rfl

/-- Whatever the network answers, the first request `add_note` issues is
the search GET. -/
theorem add_note_head (fd : String → String → String → Option String)
    (fv : String → Option VocabId) (net : Net) (openOk : String → Bool)
    (cfg : Config) (s : Fields) :
    ((add_note fd fv net openOk cfg s).1).head? = some (searchRequest s.word) := by
  unfold add_note
  cases hn : net (searchRequest s.word)
  · rfl
  · simp only []
    split
    · rfl
    · split
      · split <;> rfl
      · rfl

/-- Every element of the gated dependent-step list is one of the six
step invocations, with the gate that put it there. -/
theorem dependentSteps_mem (fv : String → Option VocabId) (net : Net)
    (cfg : Config) (vocab : VocabCard) (durl : String) (s : Fields)
    (p : StepResult) (hp : p ∈ dependentSteps fv net cfg vocab durl s) :
    (∃ deckId, cfg.auto_add = some deckId ∧
        p = vocab.add_to_deck fv net deckId durl) ∨
    p = vocab.force_unlock fv net durl ∨
    p = vocab.forq fv net durl ∨
    p = vocab.mark_unknown fv net durl ∨
    p = vocab.set_custom_sentence fv net s.sentence ∨
    (∃ d, s.definition = some d ∧ p = vocab.set_custom_definition fv net d) := by
  simp only [dependentSteps, List.mem_append] at hp
  rcases hp with ((((h | h) | h) | h) | h) | h
  · cases hada : cfg.auto_add with
    | none => rw [hada] at h; simp at h
    | some deckId =>
      rw [hada] at h
      simp only [List.mem_singleton] at h
      exact Or.inl ⟨deckId, rfl, h⟩
  · rcases Bool.eq_false_or_eq_true cfg.auto_unlock with hb | hb <;> rw [hb] at h <;>
      simp at h
    exact Or.inr (Or.inl h)
  · rcases Bool.eq_false_or_eq_true cfg.auto_forq with hb | hb <;> rw [hb] at h <;>
      simp at h
    exact Or.inr (Or.inr (Or.inl h))
  · rcases Bool.eq_false_or_eq_true cfg.auto_forget with hb | hb <;> rw [hb] at h <;>
      simp at h
    exact Or.inr (Or.inr (Or.inr (Or.inl h)))
  · rcases Bool.eq_false_or_eq_true cfg.add_mined_sentences with hb | hb <;>
      rw [hb] at h <;> simp at h
    exact Or.inr (Or.inr (Or.inr (Or.inr (Or.inl h))))
  · rcases Bool.eq_false_or_eq_true cfg.add_custom_definition with hb | hb
    · rw [hb] at h
      rw [if_pos rfl] at h
      split at h
      next x d heq =>
        simp only [List.mem_singleton] at h
        exact Or.inr (Or.inr (Or.inr (Or.inr (Or.inr ⟨d, heq, h⟩))))
      next x heq => simp at h
    · rw [hb] at h
      simp at h

/-! ## Claims -/

/-- Claim C1, counterexample: with a session, a found and fetched detail page,
add-to-deck and force-unlock both enabled, and the deck-add endpoint answering
500, the run aborts with the deck-add error: the enabled force-unlock step
issues no request (only search, detail fetch and deck-add appear) and the run
does not return its resolved URL.  This refutes "each enabled dependent step
produces its own outcome without short-circuiting the others, and a run with
only reported failures still returns its resolved URL". -/
theorem C1_counterexample :
    cfgC1.auto_unlock = true ∧
    add_note fdW fvW netC1 openTrue cfgC1 sW =
      ([searchRequest "w", getRequest "/vocabulary/1/x",
        formRequest "/deck/5/add"
          [("v", "1"), ("r", "3"), ("s", "2"), ("origin", "/vocabulary/1/x")]],
       Except.error "Add to deck failed, status: 500") :=
  ⟨rfl, rfl⟩

/-- Claim C1 (amended): the dependent steps run in source order, but a
failing enabled step short-circuits the rest — the first error in the
chain aborts the run with that error, the remaining dependent steps and the
open step never run, and the run does not return its resolved URL. -/
theorem C1_amended :
    (∀ (l : List HttpRequest) (e : String) (rest : List StepResult),
      seqSteps ((l, Except.error e) :: rest) = (l, Except.error e)) ∧
    (∀ (fd : String → String → String → Option String)
        (fv : String → Option VocabId) (net : Net) (openOk : String → Bool)
        (cfg : Config) (s : Fields) (res dres : HttpResponse) (durl : String)
        (l : List HttpRequest) (e : String),
      cfg.session_id.isSome = true →
      net (searchRequest s.word) = some res →
      fd res.body s.word ((s.reading).getD "") = some durl →
      net (getRequest durl) = some dres →
      seqSteps (dependentSteps fv net cfg ⟨dres.body⟩ durl s) =
        (l, Except.error e) →
      add_note fd fv net openOk cfg s =
        (searchRequest s.word :: getRequest durl :: l, Except.error e)) :=
  ⟨fun l e rest => seqSteps_error l e rest,
   fun fd fv net openOk cfg s res dres durl l e hsess hnet hfd hfetch hseq =>
    add_note_dependent_error fd fv net openOk cfg s res dres durl l e
      hsess hnet hfd hfetch hseq⟩

theorem C1_amended_witness :
    add_note fdW fvW netC1 openTrue cfgC1 sW =
      (searchRequest "w" :: getRequest "/vocabulary/1/x" ::
        [formRequest "/deck/5/add"
          [("v", "1"), ("r", "3"), ("s", "2"), ("origin", "/vocabulary/1/x")]],
       Except.error "Add to deck failed, status: 500") :=
  C1_amended.2 fdW fvW netC1 openTrue cfgC1 sW ⟨200, "SEARCH"⟩ ⟨200, "DETAIL"⟩
    "/vocabulary/1/x"
    [formRequest "/deck/5/add"
      [("v", "1"), ("r", "3"), ("s", "2"), ("origin", "/vocabulary/1/x")]]
    "Add to deck failed, status: 500" rfl rfl rfl rfl rfl

/-- Claim C2, counterexample: with a session, a found and fetched detail
page whose identifier extraction fails, add-to-deck and forq enabled and
auto-open enabled, the run aborts at the first dependent step with the
missing-identifier error: forq is never attempted and the open step never
runs (the run result is the error, not a URL).  This refutes "the overall
run is not aborted by those failures, and steps that do not need the triple
(e.g. the open step) still run". -/
theorem C2_counterexample :
    cfgC2.auto_forq = true ∧ cfgC2.auto_open = true ∧
    add_note fdW fvNone netOkW openTrue cfgC2 sW =
      ([searchRequest "w", getRequest "/vocabulary/1/x"],
       Except.error "can't find vocab id") :=
  ⟨rfl, rfl, rfl⟩

/-- Claim C2 (amended): each dependent step does call the extractor lazily
and fails individually with the missing-identifier error when the triple
cannot be extracted (issuing no request), but the first such failure of an
enabled step aborts the whole run: with add-to-deck enabled the run ends in
`can't find vocab id` right after the search and detail-fetch requests, and
no later step (including open) runs. -/
theorem C2_amended :
    (∀ (fv : String → Option VocabId) (net : Net) (c : VocabCard)
        (deckId : Nat) (origin sentence defn : String),
      fv c.body = none → 1 ≤ sentence.length → 1 ≤ defn.length →
      VocabCard.add_to_deck fv net c deckId origin =
        ([], Except.error "can't find vocab id") ∧
      VocabCard.force_unlock fv net c origin =
        ([], Except.error "can't find vocab id") ∧
      VocabCard.forq fv net c origin = ([], Except.error "can't find vocab id") ∧
      VocabCard.mark_unknown fv net c origin =
        ([], Except.error "can't find vocab id") ∧
      VocabCard.set_custom_sentence fv net c sentence =
        ([], Except.error "can't find vocab id") ∧
      VocabCard.set_custom_definition fv net c defn =
        ([], Except.error "can't find vocab id")) ∧
    (∀ (fd : String → String → String → Option String)
        (fv : String → Option VocabId) (net : Net) (openOk : String → Bool)
        (cfg : Config) (s : Fields) (res dres : HttpResponse) (durl : String)
        (deckId : Nat),
      cfg.session_id.isSome = true →
      net (searchRequest s.word) = some res →
      fd res.body s.word ((s.reading).getD "") = some durl →
      net (getRequest durl) = some dres →
      fv dres.body = none →
      cfg.auto_add = some deckId →
      add_note fd fv net openOk cfg s =
        ([searchRequest s.word, getRequest durl],
         Except.error "can't find vocab id")) := by
  constructor
  · intro fv net c deckId origin sentence defn h hs hd
    exact ⟨add_to_deck_no_id fv net c deckId origin h,
      force_unlock_no_id fv net c origin h,
      forq_no_id fv net c origin h,
      mark_unknown_no_id fv net c origin h,
      set_custom_sentence_no_id fv net c sentence hs h,
      set_custom_definition_no_id fv net c defn hd h⟩
  · intro fd fv net openOk cfg s res dres durl deckId hsess hnet hfd hfetch hfv hada
    have hseq : seqSteps (dependentSteps fv net cfg ⟨dres.body⟩ durl s) =
        ([], Except.error "can't find vocab id") := by
      unfold dependentSteps
      rw [hada]
      dsimp only
      rw [add_to_deck_no_id fv net ⟨dres.body⟩ deckId durl hfv]
      rfl
    exact add_note_dependent_error fd fv net openOk cfg s res dres durl []
      "can't find vocab id" hsess hnet hfd hfetch hseq

theorem C2_amended_witness :
    add_note fdW fvNone netOkW openTrue cfgC2 sW =
      ([searchRequest "w", getRequest "/vocabulary/1/x"],
       Except.error "can't find vocab id") :=
  C2_amended.2 fdW fvNone netOkW openTrue cfgC2 sW ⟨200, "SEARCH"⟩ ⟨200, "DETAIL"⟩
    "/vocabulary/1/x" 5 rfl rfl rfl rfl rfl rfl

/-- Claim C3: when no detail URL is found on the (successfully fetched)
search page, then (i) if no login/detail-dependent option is enabled — and
the open collaborator succeeds if auto-open is on — the run completes
successfully with the search URL as its result, and (ii) if a session
credential is present and at least one login/detail-dependent option is
enabled, the run fails with the `can't find card` configuration-conflict
error. -/
theorem C3_detail_not_found (fd : String → String → String → Option String)
    (fv : String → Option VocabId) (net : Net) (openOk : String → Bool)
    (cfg : Config) (s : Fields) (res : HttpResponse)
    (hnet : net (searchRequest s.word) = some res)
    (hfd : fd res.body s.word ((s.reading).getD "") = none) :
    (cfg.any_login_or_detail_options = false →
      (cfg.auto_open = true → openOk (searchUrl s.word) = true) →
      add_note fd fv net openOk cfg s =
        ([searchRequest s.word], Except.ok (searchUrl s.word))) ∧
    (cfg.session_id.isSome = true → cfg.any_login_or_detail_options = true →
      add_note fd fv net openOk cfg s =
        ([searchRequest s.word], Except.error "can't find card")) := by
  constructor
  · intro hopt hopen
    simp only [add_note, hnet, hfd, sessionSteps, hopt, if_false, Bool.false_eq_true]
    cases hsess : cfg.session_id.isSome <;> cases hauto : cfg.auto_open <;>
      simp [hauto, hopen, hsess]
  · intro hsess hopt
    simp only [add_note, hnet, hfd, sessionSteps, hopt, hsess, if_true]

theorem C3_witness :
    add_note fdNone fvW netOkW openTrue cfgNone sW =
      ([searchRequest "w"], Except.ok (searchUrl "w")) ∧
    add_note fdNone fvW netOkW openTrue cfgForget sW =
      ([searchRequest "w"], Except.error "can't find card") :=
  ⟨(C3_detail_not_found fdNone fvW netOkW openTrue cfgNone sW ⟨200, "SEARCH"⟩
      rfl rfl).1 rfl (fun _ => rfl),
   (C3_detail_not_found fdNone fvW netOkW openTrue cfgForget sW ⟨200, "SEARCH"⟩
      rfl rfl).2 rfl rfl⟩

/-- Claim C5, counterexample: the detail-page GET returning HTTP 404 (a
non-success status) is not fatal — the run goes on to the enabled forq step
and returns its resolved URL.  This refutes "a non-success HTTP status on
the detail-page GET is fatal: no dependent step proceeds". -/
theorem C5_counterexample :
    statusIsSuccess 404 = false ∧ netC5 (getRequest "/vocabulary/1/x") = some ⟨404, "DETAIL"⟩ ∧
    add_note fdW fvW netC5 openTrue cfgForq sW =
      ([searchRequest "w", getRequest "/vocabulary/1/x",
        formRequest "/prioritize"
          [("v", "1"), ("s", "2"), ("origin", "/vocabulary/1/x")]],
       Except.ok "https://jpdb.io/vocabulary/1/x") :=
  ⟨rfl, rfl, rfl⟩

/-- Claim C5 (amended): only a transport error on the detail-page GET is
fatal — the run aborts with `get detail page` right after the search and
the detail request, and no dependent step proceeds; the HTTP status of the
detail response is never inspected. -/
theorem C5_amended (fd : String → String → String → Option String)
    (fv : String → Option VocabId) (net : Net) (openOk : String → Bool)
    (cfg : Config) (s : Fields) (res : HttpResponse) (durl : String)
    (hsess : cfg.session_id.isSome = true)
    (hnet : net (searchRequest s.word) = some res)
    (hfd : fd res.body s.word ((s.reading).getD "") = some durl)
    (hfetch : net (getRequest durl) = none) :
    add_note fd fv net openOk cfg s =
      ([searchRequest s.word, getRequest durl], Except.error "get detail page") := by
  simp only [add_note, hnet, hfd, hsess, if_true, sessionSteps, hfetch]

theorem C5_amended_witness :
    add_note fdW fvW (fun req => if req.url = "https://jpdb.io/vocabulary/1/x"
        then none else netOkW req) openTrue cfgAll sW =
      ([searchRequest "w", getRequest "/vocabulary/1/x"],
       Except.error "get detail page") :=
  C5_amended fdW fvW
    (fun req => if req.url = "https://jpdb.io/vocabulary/1/x"
      then none else netOkW req) openTrue cfgAll sW ⟨200, "SEARCH"⟩
    "/vocabulary/1/x" rfl rfl rfl rfl

/-- Claim C4, counterexample: a 302 (redirection) response makes
force-unlock succeed but makes add-to-deck fail — the 2xx-or-3xx success
definition is not uniform across the six dependent steps.  This refutes
"this one success definition applies uniformly to all six dependent steps,
including add-to-deck". -/
theorem C4_counterexample :
    statusIsRedirection 302 = true ∧
    (VocabCard.force_unlock fvW net302 cardW "/o").2 = Except.ok () ∧
    (VocabCard.add_to_deck fvW net302 cardW 5 "/o").2 =
      Except.error "Add to deck failed, status: 302" :=
  ⟨rfl, rfl, rfl⟩

/-- Claim C4 (amended): for five of the six dependent steps (force-unlock,
forq, mark-unknown, set-custom-sentence, set-custom-definition) a response
status counts as success exactly when it is 2xx or 3xx; add-to-deck alone
counts success exactly when the status is 2xx, treating 3xx as failure. -/
theorem C4_amended (fv : String → Option VocabId) (c : VocabCard) (id : VocabId)
    (st : Nat) (b origin sentence defn : String) (deckId : Nat)
    (hid : fv c.body = some id) (hs : 1 ≤ sentence.length)
    (hd : 1 ≤ defn.length) :
    ((VocabCard.add_to_deck fv (fun _ => some ⟨st, b⟩) c deckId origin).2 =
        Except.ok () ↔ (200 ≤ st ∧ st < 300)) ∧
    ((VocabCard.force_unlock fv (fun _ => some ⟨st, b⟩) c origin).2 =
        Except.ok () ↔ ((200 ≤ st ∧ st < 300) ∨ (300 ≤ st ∧ st < 400))) ∧
    ((VocabCard.forq fv (fun _ => some ⟨st, b⟩) c origin).2 =
        Except.ok () ↔ ((200 ≤ st ∧ st < 300) ∨ (300 ≤ st ∧ st < 400))) ∧
    ((VocabCard.mark_unknown fv (fun _ => some ⟨st, b⟩) c origin).2 =
        Except.ok () ↔ ((200 ≤ st ∧ st < 300) ∨ (300 ≤ st ∧ st < 400))) ∧
    ((VocabCard.set_custom_sentence fv (fun _ => some ⟨st, b⟩) c sentence).2 =
        Except.ok () ↔ ((200 ≤ st ∧ st < 300) ∨ (300 ≤ st ∧ st < 400))) ∧
    ((VocabCard.set_custom_definition fv (fun _ => some ⟨st, b⟩) c defn).2 =
        Except.ok () ↔ ((200 ≤ st ∧ st < 300) ∨ (300 ≤ st ∧ st < 400))) := by
  refine ⟨?_, ?_, ?_, ?_, ?_, ?_⟩
  · simp only [VocabCard.add_to_deck, VocabCard.find_id, hid]
    by_cases hc : 200 ≤ st ∧ st < 300 <;>
      simp [statusIsSuccess, hc]
  · simp only [VocabCard.force_unlock, VocabCard.find_id, hid]
    by_cases h1 : 200 ≤ st ∧ st < 300 <;> by_cases h2 : 300 ≤ st ∧ st < 400 <;>
      simp [statusIsSuccess, statusIsRedirection, h1, h2]
  · simp only [VocabCard.forq, VocabCard.find_id, hid]
    by_cases h1 : 200 ≤ st ∧ st < 300 <;> by_cases h2 : 300 ≤ st ∧ st < 400 <;>
      simp [statusIsSuccess, statusIsRedirection, h1, h2]
  · simp only [VocabCard.mark_unknown, VocabCard.find_id, hid]
    by_cases h1 : 200 ≤ st ∧ st < 300 <;> by_cases h2 : 300 ≤ st ∧ st < 400 <;>
      simp [statusIsSuccess, statusIsRedirection, h1, h2]
  · unfold VocabCard.set_custom_sentence
    rw [if_neg (by omega)]
    simp only [VocabCard.find_id, hid]
    by_cases h1 : 200 ≤ st ∧ st < 300 <;> by_cases h2 : 300 ≤ st ∧ st < 400 <;>
      simp [statusIsSuccess, statusIsRedirection, h1, h2]
  · unfold VocabCard.set_custom_definition
    rw [if_neg (by omega)]
    simp only [VocabCard.find_id, hid]
    by_cases h1 : 200 ≤ st ∧ st < 300 <;> by_cases h2 : 300 ≤ st ∧ st < 400 <;>
      simp [statusIsSuccess, statusIsRedirection, h1, h2]

theorem C4_amended_witness :
    (VocabCard.add_to_deck fvW (fun _ => some ⟨250, ""⟩) cardW 5 "/o").2 =
      Except.ok () ∧
    (VocabCard.forq fvW (fun _ => some ⟨302, ""⟩) cardW "/o").2 =
      Except.ok () :=
  ⟨(C4_amended fvW cardW idW 250 "" "/o" "x" "y" 5 rfl (by decide)
      (by decide)).1.mpr (by omega),
   ((C4_amended fvW cardW idW 302 "" "/o" "x" "y" 5 rfl (by decide)
      (by decide)).2.2.1).mpr (by omega)⟩

/-- Claim C6: an empty sentence makes set-custom-sentence a successful
no-op (no request issued), an empty definition makes set-custom-definition
a successful no-op, and an absent definition makes `add_note`'s dependent
phase behave as if the add-custom-definition gate were off (the step is
never invoked). -/
theorem C6_empty_text_guards :
    (∀ (fv : String → Option VocabId) (net : Net) (c : VocabCard),
      VocabCard.set_custom_sentence fv net c "" = ([], Except.ok ())) ∧
    (∀ (fv : String → Option VocabId) (net : Net) (c : VocabCard),
      VocabCard.set_custom_definition fv net c "" = ([], Except.ok ())) ∧
    (∀ (fv : String → Option VocabId) (net : Net) (cfg : Config)
        (vocab : VocabCard) (durl : String) (s : Fields),
      s.definition = none →
      dependentSteps fv net cfg vocab durl s =
        dependentSteps fv net
          ⟨cfg.session_id, cfg.auto_add, cfg.auto_unlock, cfg.auto_forq,
            cfg.auto_forget, cfg.add_mined_sentences, false, cfg.auto_open⟩
          vocab durl s) := by
  refine ⟨fun fv net c => rfl, fun fv net c => rfl,
    fun fv net cfg vocab durl s h => ?_⟩
  unfold dependentSteps
  rw [h]
  rcases Bool.eq_false_or_eq_true cfg.add_custom_definition with hb | hb <;>
    rw [hb] <;> rfl

theorem C6_witness :
    VocabCard.set_custom_sentence fvW netOkW cardW "" = ([], Except.ok ()) ∧
    dependentSteps fvW netOkW cfgAll cardW "/vocabulary/1/x" sNoDef =
      dependentSteps fvW netOkW
        ⟨some "sess", some 5, true, true, true, true, false, true⟩
        cardW "/vocabulary/1/x" sNoDef :=
  ⟨C6_empty_text_guards.1 fvW netOkW cardW,
   C6_empty_text_guards.2.2 fvW netOkW cfgAll cardW "/vocabulary/1/x" sNoDef rfl⟩

/-- Claim C10: the empty-text guard runs before identifier extraction:
even on a card body from which no identifier triple can be extracted,
calling set-custom-sentence or set-custom-definition with empty text
returns success with no request issued and no missing-identifier error. -/
theorem C10_guard_before_extraction (fv : String → Option VocabId) (net : Net)
    (c : VocabCard) (h : fv c.body = none) :
    VocabCard.set_custom_sentence fv net c "" = ([], Except.ok ()) ∧
    VocabCard.set_custom_definition fv net c "" = ([], Except.ok ()) :=
  ⟨rfl, rfl⟩

theorem C10_witness :
    fvNone "NOID" = none ∧
    VocabCard.set_custom_sentence fvNone netOkW ⟨"NOID"⟩ "" =
      ([], Except.ok ()) ∧
    VocabCard.set_custom_definition fvNone netOkW ⟨"NOID"⟩ "" =
      ([], Except.ok ()) :=
  ⟨rfl, (C10_guard_before_extraction fvNone netOkW ⟨"NOID"⟩ rfl).1,
   (C10_guard_before_extraction fvNone netOkW ⟨"NOID"⟩ rfl).2⟩

/-- Claim C7: within one run (session present, detail URL found and
fetched), the identifier triple extracted from the detail page is the
single value every dependent request carries: every issued request is the
search GET, the detail GET, or one of the six dependent shapes built from
that one triple `id`. -/
theorem C7_single_triple (fd : String → String → String → Option String)
    (fv : String → Option VocabId) (net : Net) (openOk : String → Bool)
    (cfg : Config) (s : Fields) (res dres : HttpResponse) (durl : String)
    (id : VocabId)
    (hsess : cfg.session_id.isSome = true)
    (hnet : net (searchRequest s.word) = some res)
    (hfd : fd res.body s.word ((s.reading).getD "") = some durl)
    (hfetch : net (getRequest durl) = some dres)
    (hid : fv dres.body = some id) :
    ∀ req ∈ (add_note fd fv net openOk cfg s).1,
      req = searchRequest s.word ∨ req = getRequest durl ∨
      ∃ deckId, req ∈ dependentRequestShapes id durl deckId s := by
  intro req hreq
  rw [add_note_requests_session fd fv net openOk cfg s res dres durl
    hsess hnet hfd hfetch] at hreq
  rcases List.mem_cons.1 hreq with rfl | hreq
  · exact Or.inl rfl
  rcases List.mem_cons.1 hreq with rfl | hreq
  · exact Or.inr (Or.inl rfl)
  obtain ⟨p, hp, hmem⟩ := seqSteps_mem _ _ hreq
  rcases dependentSteps_mem fv net cfg ⟨dres.body⟩ durl s p hp with
    ⟨deckId, _, rfl⟩ | rfl | rfl | rfl | rfl | ⟨d, hdef, rfl⟩
  · rw [add_to_deck_requests fv net ⟨dres.body⟩ deckId durl id hid] at hmem
    simp only [List.mem_singleton] at hmem
    exact Or.inr (Or.inr ⟨deckId, by simp [dependentRequestShapes, hmem]⟩)
  · rw [force_unlock_requests fv net ⟨dres.body⟩ durl id hid] at hmem
    simp only [List.mem_singleton] at hmem
    exact Or.inr (Or.inr ⟨0, by simp [dependentRequestShapes, hmem]⟩)
  · rw [forq_requests fv net ⟨dres.body⟩ durl id hid] at hmem
    simp only [List.mem_singleton] at hmem
    exact Or.inr (Or.inr ⟨0, by simp [dependentRequestShapes, hmem]⟩)
  · rw [mark_unknown_requests fv net ⟨dres.body⟩ durl id hid] at hmem
    simp only [List.mem_singleton] at hmem
    exact Or.inr (Or.inr ⟨0, by simp [dependentRequestShapes, hmem]⟩)
  · by_cases hl : (s.sentence).length < 1
    · unfold VocabCard.set_custom_sentence at hmem
      rw [if_pos hl] at hmem
      simp at hmem
    · rw [set_custom_sentence_requests fv net ⟨dres.body⟩ s.sentence id hid
        (by omega)] at hmem
      simp only [List.mem_singleton] at hmem
      exact Or.inr (Or.inr ⟨0, by simp [dependentRequestShapes, hmem]⟩)
  · by_cases hl : d.length < 1
    · unfold VocabCard.set_custom_definition at hmem
      rw [if_pos hl] at hmem
      simp at hmem
    · rw [set_custom_definition_requests fv net ⟨dres.body⟩ d id hid
        (by omega)] at hmem
      simp only [List.mem_singleton] at hmem
      subst hmem
      exact Or.inr (Or.inr ⟨0, by simp [dependentRequestShapes, hdef]⟩)

theorem C7_witness :
    formRequest "/prioritize"
        [("v", "1"), ("s", "2"), ("origin", "/vocabulary/1/x")] ∈
      (add_note fdW fvW netOkW openTrue cfgAll sW).1 ∧
    (formRequest "/prioritize"
        [("v", "1"), ("s", "2"), ("origin", "/vocabulary/1/x")] =
        searchRequest sW.word ∨
      formRequest "/prioritize"
        [("v", "1"), ("s", "2"), ("origin", "/vocabulary/1/x")] =
        getRequest "/vocabulary/1/x" ∨
      ∃ deckId, formRequest "/prioritize"
        [("v", "1"), ("s", "2"), ("origin", "/vocabulary/1/x")] ∈
        dependentRequestShapes idW "/vocabulary/1/x" deckId sW) := by
  have hm : formRequest "/prioritize"
      [("v", "1"), ("s", "2"), ("origin", "/vocabulary/1/x")] ∈
      (add_note fdW fvW netOkW openTrue cfgAll sW).1 := by decide
  exact ⟨hm, C7_single_triple fdW fvW netOkW openTrue cfgAll sW ⟨200, "SEARCH"⟩
    ⟨200, "DETAIL"⟩ "/vocabulary/1/x" idW rfl rfl rfl rfl rfl _ hm⟩

/-- Claim C8: the wire shapes.  The search request is a GET to
`https://jpdb.io/search?q={word}&lang=english#a` and is the first request
of every run; given an extracted triple, deck-add POSTs
`{v, r, s, origin}` to `/deck/{deckId}/add`; force-unlock, forq and
mark-unknown POST `{v, s, origin}` to `/force-unlock`, `/prioritize` and
`/mark-as-not-known`; sentence-edit POSTs `{sentence, translation}` to
`/edit-shown-sentence?v=&s=&r=`; definition-edit POSTs the eight fields
(all language flags set) to `/edit_shown_meanings?v=&s=&r=` — all on the
fixed `https://jpdb.io` origin. -/
theorem C8_wire_shapes (fd : String → String → String → Option String)
    (fv : String → Option VocabId) (net : Net) (openOk : String → Bool)
    (cfg : Config) (s : Fields) (c : VocabCard) (id : VocabId)
    (word origin sentence defn : String) (deckId : Nat)
    (hid : fv c.body = some id) (hs : 1 ≤ sentence.length)
    (hd : 1 ≤ defn.length) :
    searchRequest word =
      ⟨Method.GET, "https://jpdb.io/search?q=" ++ word ++ "&lang=english#a",
        none⟩ ∧
    ((add_note fd fv net openOk cfg s).1).head? = some (searchRequest s.word) ∧
    (VocabCard.add_to_deck fv net c deckId origin).1 =
      [⟨Method.POST, "https://jpdb.io" ++ ("/deck/" ++ toString deckId ++ "/add"),
        some [("v", id.v), ("r", id.r), ("s", id.s), ("origin", origin)]⟩] ∧
    (VocabCard.force_unlock fv net c origin).1 =
      [⟨Method.POST, "https://jpdb.io/force-unlock",
        some [("v", id.v), ("s", id.s), ("origin", origin)]⟩] ∧
    (VocabCard.forq fv net c origin).1 =
      [⟨Method.POST, "https://jpdb.io/prioritize",
        some [("v", id.v), ("s", id.s), ("origin", origin)]⟩] ∧
    (VocabCard.mark_unknown fv net c origin).1 =
      [⟨Method.POST, "https://jpdb.io/mark-as-not-known",
        some [("v", id.v), ("s", id.s), ("origin", origin)]⟩] ∧
    (VocabCard.set_custom_sentence fv net c sentence).1 =
      [⟨Method.POST,
        "https://jpdb.io" ++
          ("/edit-shown-sentence?v=" ++ id.v ++ "&s=" ++ id.s ++ "&r=" ++ id.r),
        some [("sentence", sentence), ("translation", "")]⟩] ∧
    (VocabCard.set_custom_definition fv net c defn).1 =
      [⟨Method.POST,
        "https://jpdb.io" ++
          ("/edit_shown_meanings?v=" ++ id.v ++ "&s=" ++ id.s ++ "&r=" ++ id.r),
        some [("language-select", "default"),
              ("language-english", "1"),
              ("language-japanese", "1"),
              ("language-german", "1"),
              ("language-spanish", "1"),
              ("language-french", "1"),
              ("language-hungarian", "1"),
              ("custom-definition", defn)]⟩] := by
  refine ⟨rfl, add_note_head fd fv net openOk cfg s, ?_, ?_, ?_, ?_, ?_, ?_⟩
  · rw [add_to_deck_requests fv net c deckId origin id hid]
    rfl
  · rw [force_unlock_requests fv net c origin id hid]
    rfl
  · rw [forq_requests fv net c origin id hid]
    rfl
  · rw [mark_unknown_requests fv net c origin id hid]
    rfl
  · rw [set_custom_sentence_requests fv net c sentence id hid hs]
    rfl
  · rw [set_custom_definition_requests fv net c defn id hid hd]
    rfl

theorem C8_witness :
    searchRequest "w" =
      ⟨Method.GET, "https://jpdb.io/search?q=w&lang=english#a", none⟩ ∧
    (VocabCard.forq fvW netOkW cardW "/o").1 =
      [⟨Method.POST, "https://jpdb.io/prioritize",
        some [("v", "1"), ("s", "2"), ("origin", "/o")]⟩] := by
  have h := C8_wire_shapes fdW fvW netOkW openTrue cfgAll sW cardW idW
    "w" "/o" "x" "y" 5 rfl (by decide) (by decide)
  exact ⟨h.1, h.2.2.2.2.1⟩

end JC
